import Mathlib

/-!
# Verification of the outbound AI-call governor and summarization endpoint

Shallow embedding of the two core modules of the repository:

* `src/lib/ai/gemini.ts` — sliding-window rate limiter, circuit breaker,
  response cache and the `generateText` call governor (namespace `Gemini`);
* the summarization route (`src/app/api/ai/summarize/route.ts`) — ETag
  cache with stale-while-revalidate and the endpoint-level pacing guard
  (namespace `Summarize`).

Modelling conventions:

* JavaScript numbers (timestamps in milliseconds, intervals, temperatures)
  are modelled as exact rationals `ℚ`; counters are `Nat`.
* The module-level mutable singletons (`rateLimit`, `circuitBreaker`,
  `responseCache`, the shared `proModel.generationConfig`, the endpoint's
  `cache` / `lastRequestTime` / `currentInterval`) are gathered into
  explicit state records threaded through each function.
* JS `Map` objects are modelled as association lists where `set` prepends
  (lookup returns the most recent binding, matching `Map` semantics for
  `get`/`set`/`delete`).
* The upstream `generateContent` call is a parameter: an `UpstreamOutcome`
  saying what the awaited call would do (return text, or throw an error
  with an HTTP-like status and message).
* The cryptographic hashes (`sha256` for the endpoint cache key, `md5` for
  the ETag) are parameters of type `String → String`: no property proved
  here depends on more than their being functions.
-/

/-- Association-list lookup, modelling JS `Map.get` (latest binding wins,
because `cacheSet` prepends). -/
def cacheGet {β : Type} (key : String) : List (String × β) → Option β
  | [] => none
  | (k, v) :: rest => if k = key then some v else cacheGet key rest

/-- Association-list insert, modelling JS `Map.set`. -/
def cacheSet {β : Type} (key : String) (v : β) (m : List (String × β)) :
    List (String × β) :=
  (key, v) :: m

/-- Association-list removal, modelling JS `Map.delete`. -/
def cacheDelete {β : Type} (key : String) (m : List (String × β)) :
    List (String × β) :=
  m.filter (fun kv => kv.1 ≠ key)

@[simp] theorem cacheGet_nil {β : Type} (key : String) :
    cacheGet (β := β) key [] = none := rfl

@[simp] theorem cacheGet_cons {β : Type} (key k : String) (v : β)
    (rest : List (String × β)) :
    cacheGet key ((k, v) :: rest) =
      if k = key then some v else cacheGet key rest := rfl

@[simp] theorem cacheGet_set_self {β : Type} (key : String) (v : β)
    (m : List (String × β)) : cacheGet key (cacheSet key v m) = some v := by
  simp [cacheSet]

/-- String containment test (JS `String.prototype.includes`). -/
def strContains (s pat : String) : Bool :=
  decide (pat.data <:+: s.data)

namespace Gemini

/-! ## Configuration constants (`src/lib/ai/gemini.ts`) -/

/-- `rateLimit.windowSize` (1 minute, in ms). -/
def windowSize : ℚ := 60000

/-- `rateLimit.maxRequests`. -/
def maxRequests : Nat := 10

/-- `rateLimit.backoffMultiplier`. -/
def backoffMultiplier : ℚ := 3 / 2

/-- `circuitBreaker.resetTimeout` (30 s, in ms). -/
def resetTimeout : ℚ := 30000

/-- The failure threshold hard-coded in `addRequest` (`failures >= 3`). -/
def failureThreshold : Nat := 3

/-- `CACHE_DURATION` (1 hour, in ms). -/
def CACHE_DURATION : ℚ := 3600000

/-! ## Data model -/

/-- The exported `GeminiResponse` interface. -/
structure GeminiResponse where
  text : Option String
  error : Option String
  retryAfter : Option ℚ
deriving Repr, DecidableEq

/-- The shared `proModel.generationConfig` object. -/
structure GenerationConfig where
  temperature : ℚ
  topK : ℚ
  topP : ℚ
  maxOutputTokens : ℚ
deriving Repr, DecidableEq

/-- The generation config `proModel` is constructed with:
`{ temperature: 0.5, topK: 40, topP: 0.95, maxOutputTokens: 2048 }`. -/
def initialGenerationConfig : GenerationConfig :=
  { temperature := 1 / 2, topK := 40, topP := 19 / 20, maxOutputTokens := 2048 }

/-- One `responseCache` entry: `{ response, timestamp }`. -/
structure CacheEntry where
  response : GeminiResponse
  timestamp : ℚ
deriving Repr, DecidableEq

/-- All module-level mutable state of `gemini.ts`: the rate-limit window,
the circuit breaker, the shared model's generation config and the response
cache. -/
structure GeminiState where
  requests : List ℚ
  failures : Nat
  lastFailureTime : ℚ
  isOpen : Bool
  config : GenerationConfig
  cache : List (String × CacheEntry)
deriving Repr, DecidableEq

/-- The state at module load. -/
def initialState : GeminiState :=
  { requests := [], failures := 0, lastFailureTime := 0, isOpen := false,
    config := initialGenerationConfig, cache := [] }

/-! ## `checkRateLimit` -/

/-- The raw sliding-window count check at the end of `checkRateLimit`
(lines 47–54): reached after the pruning and the breaker check. -/
def checkCount (now : ℚ) (s : GeminiState) : (Bool × ℚ) × GeminiState :=
  if maxRequests ≤ s.requests.length then
    ((false, max 0 (s.requests.headI + windowSize - now)), s)
  else
    ((true, 0), s)

/-- `checkRateLimit()`: prune the window, then consult the circuit breaker
(closing it when strictly more than `resetTimeout` has elapsed since the
last failure), then the raw count.  Returns `((allowed, retryAfter), s')`. -/
def checkRateLimit (now : ℚ) (s : GeminiState) : (Bool × ℚ) × GeminiState :=
  let windowStart := now - windowSize
  let s1 := { s with requests := s.requests.filter (fun ts => windowStart < ts) }
  if s1.isOpen then
    let timeSinceLastFailure := now - s1.lastFailureTime
    if resetTimeout < timeSinceLastFailure then
      checkCount now { s1 with isOpen := false, failures := 0 }
    else
      ((false, resetTimeout - timeSinceLastFailure), s1)
  else
    checkCount now s1

/-- `addRequest(success)`: update the breaker, then push `now` onto the
window. -/
def addRequest (success : Bool) (now : ℚ) (s : GeminiState) : GeminiState :=
  let s1 :=
    if success then
      -- circuitBreaker.failures = Math.max(0, circuitBreaker.failures - 1)
      let f := s.failures - 1
      { s with failures := f, isOpen := if f = 0 then false else s.isOpen }
    else
      let f := s.failures + 1
      { s with failures := f, lastFailureTime := now,
               isOpen := if failureThreshold ≤ f then true else s.isOpen }
  { s1 with requests := s1.requests ++ [now] }

/-- `getTimeUntilNextRequest()`. -/
def getTimeUntilNextRequest (now : ℚ) (s : GeminiState) : ℚ :=
  if s.isOpen then resetTimeout
  else if s.requests.length < maxRequests then 0
  else
    (max 0 (s.requests.headI + windowSize - now)) *
      backoffMultiplier ^ s.failures

/-! ## Cache-key derivation

The source interpolates the numeric options into a template literal:
`` `pro:${temperature || 'default'}:${maxTokens || 'default'}:${prompt}` ``.
We model the JS number-to-string conversion by an explicit decimal-style
rendering: digits for a natural number, and `sign ++ numerator ++ "." ++
denominator` for a rational — an injective rendering whose characters are
digits, `-` and `.`, like JS's own (which never prints `:`). -/

/-- Decimal rendering of a natural number. -/
def natStr (n : Nat) : String :=
  if n = 0 then "0" else ⟨((Nat.digits 10 n).map Nat.digitChar).reverse⟩

/-- Rendering of a rational number (stands in for JS `String(number)`;
only injectivity and its character set matter). -/
def ratStr (q : ℚ) : String :=
  (if q.num < 0 then "-" else "") ++ natStr q.num.natAbs ++ "." ++ natStr q.den

/-- The `x || 'default'` coercion applied to an optional numeric option:
an absent option *and* the (falsy) value `0` both render as `"default"`. -/
def orDefault (o : Option ℚ) : String :=
  match o with
  | none => "default"
  | some q => if q = 0 then "default" else ratStr q

/-- The cache key of `generateText`:
`` `pro:${temperature || 'default'}:${maxTokens || 'default'}:${prompt}` ``. -/
def cacheKey (temperature maxTokens : Option ℚ) (prompt : String) : String :=
  "pro:" ++ orDefault temperature ++ ":" ++ orDefault maxTokens ++ ":" ++ prompt

/-- The fresh-hit test at the top of `generateText`:
`cached && Date.now() - cached.timestamp < CACHE_DURATION`. -/
def lookupFresh (now : ℚ) (key : String) (cache : List (String × CacheEntry)) :
    Option GeminiResponse :=
  match cacheGet key cache with
  | some e => if now - e.timestamp < CACHE_DURATION then some e.response else none
  | none => none

/-! ## `generateText` -/

/-- What the awaited upstream `generateContent` call would do if issued:
return text, or throw an error carrying an HTTP-like `status` and a
`message`. -/
inductive UpstreamOutcome where
  | ok (text : String)
  | err (status : Nat) (message : String)
deriving Repr, DecidableEq

/-- Result of one `generateText` call: the returned `GeminiResponse`, the
module state afterwards, whether the upstream call was actually issued,
whether `checkRateLimit` was consulted, and (when the upstream call was
issued) the generation config in force at that moment. -/
structure GenResult where
  response : GeminiResponse
  state : GeminiState
  upstreamCalled : Bool
  admissionChecked : Bool
  configUsed : Option GenerationConfig
deriving Repr, DecidableEq

/-- Fixed error message of the admission-denied branch. -/
def rateLimitMsg : String := "Rate limit exceeded. Please try again in a moment."

/-- Fixed error message of the upstream-429 branch. -/
def tooManyMsg : String := "Too many requests. Please wait a moment before trying again."

/-- Fixed error message of the invalid-credential branch. -/
def apiKeyMsg : String := "Invalid API key. Please check your configuration."

/-- Fixed error message of the generic-failure branch. -/
def genericFailMsg : String := "Failed to generate text. Please try again later."

/-- The pair of in-place mutations
`if (temperature) selectedModel.generationConfig.temperature = temperature`
and `if (maxTokens) selectedModel.generationConfig.maxOutputTokens = maxTokens`
(a falsy `0` leaves the field untouched, like an absent option). -/
def applyOptions (cfg : GenerationConfig) (temperature maxTokens : Option ℚ) :
    GenerationConfig :=
  let cfg1 :=
    match temperature with
    | some t => if t = 0 then cfg else { cfg with temperature := t }
    | none => cfg
  match maxTokens with
  | some m => if m = 0 then cfg1 else { cfg1 with maxOutputTokens := m }
  | none => cfg1

/-- `generateText(prompt, { temperature, maxTokens })`, with the wall clock
and the behaviour of the upstream call made explicit. Mirrors the source
line by line: cache probe, admission check, in-place mutation of the shared
generation config by the truthy options, upstream call, then either the
success path (record success, cache, return) or the catch block
(429 branch, API-key branch, generic branch). -/
def generateText (now : ℚ) (upstream : UpstreamOutcome) (prompt : String)
    (temperature maxTokens : Option ℚ) (s : GeminiState) : GenResult :=
  let key := cacheKey temperature maxTokens prompt
  match lookupFresh now key s.cache with
  | some r => ⟨r, s, false, false, none⟩
  | none =>
    let ((allowed, retryAfter), s1) := checkRateLimit now s
    if allowed = false then
      ⟨⟨none, some rateLimitMsg, some retryAfter⟩, s1, false, true, none⟩
    else
      let cfg := applyOptions s1.config temperature maxTokens
      let s2 := { s1 with config := cfg }
      match upstream with
      | .ok text =>
        let responseData : GeminiResponse := ⟨some text, none, none⟩
        let s3 := addRequest true now s2
        let s4 := { s3 with cache := cacheSet key ⟨responseData, now⟩ s3.cache }
        ⟨responseData, s4, true, true, some cfg⟩
      | .err status msg =>
        if status = 429 then
          let retry := getTimeUntilNextRequest now s2
          let s3 := addRequest false now s2
          ⟨⟨none, some tooManyMsg, some retry⟩, s3, true, true, some cfg⟩
        else if strContains msg "API key" then
          -- returns without recording the attempt
          ⟨⟨none, some apiKeyMsg, none⟩, s2, true, true, some cfg⟩
        else
          let s3 := addRequest false now s2
          ⟨⟨none, some genericFailMsg, none⟩, s3, true, true, some cfg⟩

/-! ## Injectivity of the cache-key derivation

The template literal concatenates the two rendered options and the prompt
with `:` separators; the renderings never contain `:`, so the key
determines its parts.  The only identification the `|| 'default'` coercion
introduces is `some 0 = none`. -/

/-- The identification the falsy coercion induces on an optional option
value: `0` behaves like an absent option. -/
def normOpt (o : Option ℚ) : Option ℚ :=
  match o with
  | none => none
  | some q => if q = 0 then none else some q

theorem digitChar_inj : ∀ d < 10, ∀ e < 10,
    Nat.digitChar d = Nat.digitChar e → d = e := by decide

theorem digitChar_isDigit : ∀ d < 10, (Nat.digitChar d).isDigit = true := by decide

theorem map_digitChar_inj : ∀ (l l' : List Nat), (∀ d ∈ l, d < 10) →
    (∀ d ∈ l', d < 10) → l.map Nat.digitChar = l'.map Nat.digitChar → l = l'
  | [], [], _, _, _ => rfl
  | [], _ :: _, _, _, h => by simp at h
  | _ :: _, [], _, _, h => by simp at h
  | a :: l, b :: l', h, h', heq => by
    simp only [List.map_cons, List.cons.injEq] at heq
    have hab := digitChar_inj a (h a (by simp)) b (h' b (by simp)) heq.1
    have hll := map_digitChar_inj l l' (fun d hd => h d (by simp [hd]))
      (fun d hd => h' d (by simp [hd])) heq.2
    simp [hab, hll]

theorem natStr_data_isDigit (n : Nat) :
    ∀ c ∈ (natStr n).data, c.isDigit = true := by
  intro c hc
  unfold natStr at hc
  split at hc
  · simp only [show ("0" : String).data = ['0'] from rfl, List.mem_singleton] at hc
    subst hc; decide
  · simp only [show ∀ l : List Char, (String.mk l).data = l from fun _ => rfl,
      List.mem_reverse, List.mem_map] at hc
    obtain ⟨d, hd, rfl⟩ := hc
    exact digitChar_isDigit d (Nat.digits_lt_base (by norm_num) hd)

theorem natStr_data_ne_nil (n : Nat) : (natStr n).data ≠ [] := by
  unfold natStr
  split
  · simp [show ("0" : String).data = ['0'] from rfl]
  · simp only [show ∀ l : List Char, (String.mk l).data = l from fun _ => rfl, ne_eq,
      List.reverse_eq_nil_iff, List.map_eq_nil_iff]
    exact Nat.digits_ne_nil_iff_ne_zero.mpr (by assumption)

theorem digits_map_eq_singleton_zero {b : Nat}
    (h : (Nat.digits 10 b).map Nat.digitChar = ['0']) : b = 0 := by
  have hdig : Nat.digits 10 b = [0] := by
    rcases hmap : Nat.digits 10 b with _ | ⟨d, rest⟩
    · rw [hmap] at h; simp at h
    · rw [hmap] at h
      simp only [List.map_cons, List.cons.injEq, List.map_eq_nil_iff] at h
      have hd10 : d < 10 := Nat.digits_lt_base (by norm_num) (hmap ▸ List.mem_cons_self d rest)
      have : d = 0 := digitChar_inj d hd10 0 (by norm_num) (by simpa using h.1)
      simp_all
  have hb := Nat.ofDigits_digits 10 b
  rw [hdig] at hb
  simp [Nat.ofDigits] at hb
  omega

theorem natStr_inj {a b : Nat} (h : natStr a = natStr b) : a = b := by
  have hd := congrArg String.data h
  unfold natStr at hd
  by_cases ha : a = 0 <;> by_cases hb : b = 0 <;>
    simp only [ha, hb, if_true, if_false, if_pos, if_neg, not_false_eq_true,
      show ∀ l : List Char, (String.mk l).data = l from fun _ => rfl] at hd
  · exact ha.trans hb.symm
  · exfalso
    have hmap : (Nat.digits 10 b).map Nat.digitChar = ['0'] := by
      have h2 := congrArg List.reverse hd
      simp only [List.reverse_reverse,
        show ("0" : String).data = ['0'] from rfl, List.reverse_singleton] at h2
      exact h2.symm
    exact hb (digits_map_eq_singleton_zero hmap)
  · exfalso
    have hmap : (Nat.digits 10 a).map Nat.digitChar = ['0'] := by
      have h2 := congrArg List.reverse hd
      simp only [List.reverse_reverse,
        show ("0" : String).data = ['0'] from rfl, List.reverse_singleton] at h2
      exact h2
    exact ha (digits_map_eq_singleton_zero hmap)
  · have hmapeq : (Nat.digits 10 a).map Nat.digitChar = (Nat.digits 10 b).map Nat.digitChar := by
      have h2 := congrArg List.reverse hd
      simpa using h2
    have hdig := map_digitChar_inj _ _
      (fun d hd => Nat.digits_lt_base (by norm_num) hd)
      (fun d hd => Nat.digits_lt_base (by norm_num) hd) hmapeq
    have := congrArg (Nat.ofDigits 10) hdig
    rwa [Nat.ofDigits_digits, Nat.ofDigits_digits] at this

/-- Splitting a separator-delimited concatenation: when the separator does
not occur in either left part, the parts coincide. -/
theorem append_sep_inj {c : Char} : ∀ (a : List Char) {a' b b' : List Char},
    c ∉ a → c ∉ a' → a ++ c :: b = a' ++ c :: b' → a = a' ∧ b = b'
  | [], a', b, b', _, ha', h => by
    cases a' with
    | nil => simpa using h
    | cons x xs =>
      exfalso
      simp only [List.nil_append, List.cons_append, List.cons.injEq] at h
      exact ha' (h.1 ▸ List.mem_cons_self x xs)
  | x :: xs, a', b, b', ha, ha', h => by
    cases a' with
    | nil =>
      exfalso
      simp only [List.cons_append, List.nil_append, List.cons.injEq] at h
      exact ha (h.1 ▸ List.mem_cons_self x xs)
    | cons y ys =>
      simp only [List.cons_append, List.cons.injEq] at h
      have := append_sep_inj xs (fun hm => ha (List.mem_cons_of_mem x hm))
        (fun hm => ha' (List.mem_cons_of_mem y hm)) h.2
      exact ⟨by simp [h.1, this.1], this.2⟩

theorem ratStr_data_chars (q : ℚ) :
    ∀ ch ∈ (ratStr q).data, ch = '-' ∨ ch = '.' ∨ ch.isDigit = true := by
  intro ch hch
  unfold ratStr at hch
  rw [String.data_append, String.data_append, String.data_append] at hch
  simp only [List.mem_append] at hch
  rcases hch with ((h | h) | h) | h
  · left
    split at h <;>
      simp only [show ("-" : String).data = ['-'] from rfl,
        show ("" : String).data = [] from rfl, List.mem_singleton, List.not_mem_nil] at h
    exact h
  · right; right; exact natStr_data_isDigit _ ch h
  · right; left
    simpa [show ("." : String).data = ['.'] from rfl] using h
  · right; right; exact natStr_data_isDigit _ ch h

theorem dot_not_mem_natStr (n : Nat) : '.' ∉ (natStr n).data := by
  intro h
  have := natStr_data_isDigit n '.' h
  simp at this

theorem ratStr_inj {q q' : ℚ} (h : ratStr q = ratStr q') : q = q' := by
  have hd := congrArg String.data h
  unfold ratStr at hd
  rw [String.data_append, String.data_append, String.data_append,
    String.data_append, String.data_append, String.data_append] at hd
  simp only [show ("." : String).data = ['.'] from rfl, List.append_assoc,
    List.singleton_append] at hd
  obtain ⟨cA, lA, hA⟩ : ∃ c l, (natStr q.num.natAbs).data = c :: l :=
    List.exists_cons_of_ne_nil (natStr_data_ne_nil _)
  obtain ⟨cB, lB, hB⟩ : ∃ c l, (natStr q'.num.natAbs).data = c :: l :=
    List.exists_cons_of_ne_nil (natStr_data_ne_nil _)
  by_cases h1 : q.num < 0 <;> by_cases h2 : q'.num < 0 <;>
    simp only [h1, h2, if_true, if_false, if_pos, if_neg, not_false_eq_true,
      show ("-" : String).data = ['-'] from rfl,
      show ("" : String).data = [] from rfl,
      List.singleton_append, List.nil_append, List.cons.injEq, true_and] at hd
  · obtain ⟨hnum, hden⟩ := append_sep_inj _ (dot_not_mem_natStr _) (dot_not_mem_natStr _) hd
    have hnum' := natStr_inj (String.ext hnum)
    have hden' := natStr_inj (String.ext hden)
    exact Rat.ext (by omega) hden'
  · exfalso
    rw [hB] at hd
    have : ('-' : Char).isDigit = true := by
      have := natStr_data_isDigit q'.num.natAbs cB (hB ▸ List.mem_cons_self cB lB)
      rw [← List.cons.inj hd |>.1] at this
      exact this
    simp at this
  · exfalso
    rw [hA] at hd
    have : ('-' : Char).isDigit = true := by
      have := natStr_data_isDigit q.num.natAbs cA (hA ▸ List.mem_cons_self cA lA)
      rw [List.cons.inj hd |>.1] at this
      exact this
    simp at this
  · obtain ⟨hnum, hden⟩ := append_sep_inj _ (dot_not_mem_natStr _) (dot_not_mem_natStr _) hd
    have hnum' := natStr_inj (String.ext hnum)
    have hden' := natStr_inj (String.ext hden)
    exact Rat.ext (by omega) hden'

theorem ratStr_ne_default (q : ℚ) : ratStr q ≠ "default" := by
  intro h
  have hd := congrArg String.data h
  have hchars := ratStr_data_chars q
  rw [h] at hchars
  have := hchars 'd' (by decide)
  simp at this

theorem colon_not_mem_orDefault (o : Option ℚ) : ':' ∉ (orDefault o).data := by
  intro hmem
  rcases o with _ | q
  · revert hmem; decide
  · by_cases hq : q = 0
    · simp only [orDefault, hq, if_true, if_pos] at hmem
      revert hmem; decide
    · simp only [orDefault, hq, if_false, if_neg, not_false_eq_true] at hmem
      rcases ratStr_data_chars q ':' hmem with h | h | h <;> simp at h

theorem orDefault_inj {o o' : Option ℚ} (h : orDefault o = orDefault o') :
    normOpt o = normOpt o' := by
  rcases o with _ | q <;> rcases o' with _ | q'
  · rfl
  · by_cases hq' : q' = 0
    · simp [normOpt, hq']
    · exact absurd (by simpa [orDefault, hq'] using h.symm) (ratStr_ne_default q')
  · by_cases hq : q = 0
    · simp [normOpt, hq]
    · exact absurd (by simpa [orDefault, hq] using h) (ratStr_ne_default q)
  · by_cases hq : q = 0 <;> by_cases hq' : q' = 0
    · simp [normOpt, hq, hq']
    · exact absurd (by simpa [orDefault, hq, hq'] using h.symm) (ratStr_ne_default q')
    · exact absurd (by simpa [orDefault, hq, hq'] using h) (ratStr_ne_default q)
    · have := ratStr_inj (by simpa [orDefault, hq, hq'] using h)
      simp [normOpt, hq, hq', this]

theorem orDefault_congr {o o' : Option ℚ} (h : normOpt o = normOpt o') :
    orDefault o = orDefault o' := by
  rcases o with _ | q <;> rcases o' with _ | q' <;>
    simp only [orDefault, normOpt] at h ⊢ <;> split_ifs at h ⊢ <;> simp_all

/-- The cache key identifies the triple `(temperature, maxTokens, prompt)`
exactly up to the falsy coercion of the two options: `some 0` and `none`
collide, everything else is distinguished. -/
theorem cacheKey_eq_iff (t m t' m' : Option ℚ) (p p' : String) :
    cacheKey t m p = cacheKey t' m' p' ↔
      normOpt t = normOpt t' ∧ normOpt m = normOpt m' ∧ p = p' := by
  constructor
  · intro h
    have hd := congrArg String.data h
    unfold cacheKey at hd
    simp only [String.data_append] at hd
    simp only [show ("pro:" : String).data = ['p', 'r', 'o', ':'] from rfl,
      show (":" : String).data = [':'] from rfl, List.append_assoc,
      List.singleton_append, List.cons_append, List.nil_append,
      List.cons.injEq, true_and] at hd
    obtain ⟨h1, hrest⟩ := append_sep_inj _ (colon_not_mem_orDefault t)
      (colon_not_mem_orDefault t') hd
    obtain ⟨h2, h3⟩ := append_sep_inj _ (colon_not_mem_orDefault m)
      (colon_not_mem_orDefault m') hrest
    exact ⟨orDefault_inj (String.ext h1), orDefault_inj (String.ext h2), String.ext h3⟩
  · rintro ⟨h1, h2, rfl⟩
    unfold cacheKey
    rw [orDefault_congr h1, orDefault_congr h2]

/-! ## Structural lemmas about the governor -/

theorem cacheGet_mem {β : Type} {key : String} {v : β} :
    ∀ {l : List (String × β)}, cacheGet key l = some v → (key, v) ∈ l
  | [], h => by simp [cacheGet] at h
  | (k, w) :: rest, h => by
    rw [cacheGet_cons] at h
    split at h
    · simp_all
    · exact List.mem_cons_of_mem _ (cacheGet_mem h)

/-- Shape of every response the success path stores in the cache: text
present, no error, no retry hint. -/
def successShaped (r : GeminiResponse) : Prop :=
  r.text.isSome = true ∧ r.error = none ∧ r.retryAfter = none

instance (r : GeminiResponse) : Decidable (successShaped r) := by
  unfold successShaped; infer_instance

/-- The state `checkRateLimit` leaves behind: the window is pruned, and the
breaker is reset exactly when it was open and strictly more than
`resetTimeout` had elapsed since the last failure. -/
theorem checkRateLimit_state (now : ℚ) (s : GeminiState) :
    (checkRateLimit now s).2 =
      (let s1 := { s with requests := s.requests.filter (fun ts => now - windowSize < ts) }
       if s.isOpen = true ∧ resetTimeout < now - s.lastFailureTime then
         { s1 with isOpen := false, failures := 0 }
       else s1) := by
  unfold checkRateLimit checkCount
  by_cases h1 : s.isOpen <;> by_cases h2 : resetTimeout < now - s.lastFailureTime <;>
    simp [h1, h2] <;> split <;> rfl

/-- The admission verdict of `checkRateLimit`. -/
theorem checkRateLimit_fst (now : ℚ) (s : GeminiState) :
    (checkRateLimit now s).1 =
      (let pruned := s.requests.filter (fun ts => now - windowSize < ts)
       if s.isOpen = true ∧ ¬ resetTimeout < now - s.lastFailureTime then
         (false, resetTimeout - (now - s.lastFailureTime))
       else if maxRequests ≤ pruned.length then
         (false, max 0 (pruned.headI + windowSize - now))
       else (true, 0)) := by
  unfold checkRateLimit checkCount
  by_cases h1 : s.isOpen <;> by_cases h2 : resetTimeout < now - s.lastFailureTime <;>
    simp [h1, h2] <;> split <;> rfl

theorem checkRateLimit_cache (now : ℚ) (s : GeminiState) :
    (checkRateLimit now s).2.cache = s.cache := by
  rw [checkRateLimit_state]
  by_cases h : s.isOpen = true ∧ resetTimeout < now - s.lastFailureTime <;> simp [h]

theorem checkRateLimit_config (now : ℚ) (s : GeminiState) :
    (checkRateLimit now s).2.config = s.config := by
  rw [checkRateLimit_state]
  by_cases h : s.isOpen = true ∧ resetTimeout < now - s.lastFailureTime <;> simp [h]

theorem addRequest_cache (b : Bool) (now : ℚ) (s : GeminiState) :
    (addRequest b now s).cache = s.cache := by
  unfold addRequest; cases b <;> simp

theorem addRequest_config (b : Bool) (now : ℚ) (s : GeminiState) :
    (addRequest b now s).config = s.config := by
  unfold addRequest; cases b <;> simp

theorem lookupFresh_some {now : ℚ} {key : String} {c : List (String × CacheEntry)}
    {r : GeminiResponse} (h : lookupFresh now key c = some r) :
    ∃ e, cacheGet key c = some e ∧ e.response = r := by
  unfold lookupFresh at h
  rcases hg : cacheGet key c with _ | e <;> simp only [hg] at h
  · exact absurd h (by simp)
  · refine ⟨e, rfl, ?_⟩
    by_cases hd : now - e.timestamp < CACHE_DURATION
    · simp only [if_pos hd] at h; exact Option.some.inj h
    · simp only [if_neg hd] at h; exact absurd h (by simp)

/-- What `applyOptions` does to each field. -/
theorem applyOptions_spec (cfg : GenerationConfig) (t m : Option ℚ) :
    (applyOptions cfg t m).temperature =
      (match t with
       | some q => if q = 0 then cfg.temperature else q
       | none => cfg.temperature)
    ∧ (applyOptions cfg t m).maxOutputTokens =
      (match m with
       | some q => if q = 0 then cfg.maxOutputTokens else q
       | none => cfg.maxOutputTokens)
    ∧ (applyOptions cfg t m).topK = cfg.topK
    ∧ (applyOptions cfg t m).topP = cfg.topP := by
  unfold applyOptions
  rcases t with _ | q <;> rcases m with _ | q' <;> simp <;> split_ifs <;> simp

/-- The breaker is still open after an admission check exactly when it was
open before and at most `resetTimeout` has elapsed since the last failure. -/
theorem checkRateLimit_isOpen (now : ℚ) (s : GeminiState) :
    (checkRateLimit now s).2.isOpen = true ↔
      s.isOpen = true ∧ now - s.lastFailureTime ≤ resetTimeout := by
  rw [checkRateLimit_state]
  by_cases h : s.isOpen = true ∧ resetTimeout < now - s.lastFailureTime
  · simp only [h, if_true, if_pos]
    constructor
    · intro hF; exact absurd hF (by simp)
    · rintro ⟨_, h2⟩; exact absurd h.2 (not_lt.mpr h2)
  · simp only [h, if_false, if_neg, not_false_eq_true]
    constructor
    · intro hopen
      exact ⟨hopen, not_lt.mp fun hlt => h ⟨hopen, hlt⟩⟩
    · rintro ⟨h1, _⟩
      exact h1

/-- Once strictly more than `resetTimeout` has elapsed, the admission check
itself closes the breaker, clears the failures, and admits the call when
the pruned window has capacity. -/
theorem checkRateLimit_reset (now : ℚ) (s : GeminiState)
    (h1 : s.isOpen = true) (h2 : resetTimeout < now - s.lastFailureTime) :
    (checkRateLimit now s).2.isOpen = false
    ∧ (checkRateLimit now s).2.failures = 0
    ∧ ((s.requests.filter (fun ts => now - windowSize < ts)).length < maxRequests →
        (checkRateLimit now s).1 = (true, 0)) := by
  refine ⟨?_, ?_, ?_⟩
  · rw [checkRateLimit_state]; simp [h1, h2]
  · rw [checkRateLimit_state]; simp [h1, h2]
  · intro hlen
    simp only [checkRateLimit_fst]
    rw [if_neg (fun hc => hc.2 h2), if_neg (by omega)]

/-- Fresh cache hit: `generateText` returns the cached response, touches
nothing, checks nothing. -/
theorem generateText_hit {now : ℚ} {r : GeminiResponse} (upstream : UpstreamOutcome)
    {prompt : String} {t m : Option ℚ} {s : GeminiState}
    (hhit : lookupFresh now (cacheKey t m prompt) s.cache = some r) :
    generateText now upstream prompt t m s = ⟨r, s, false, false, none⟩ := by
  unfold generateText
  simp [hhit]

/-- Cache miss with admission denied. -/
theorem generateText_denied {now : ℚ} (upstream : UpstreamOutcome)
    {prompt : String} {t m : Option ℚ} {s : GeminiState}
    (hmiss : lookupFresh now (cacheKey t m prompt) s.cache = none)
    (hdeny : (checkRateLimit now s).1.1 = false) :
    generateText now upstream prompt t m s =
      ⟨⟨none, some rateLimitMsg, some (checkRateLimit now s).1.2⟩,
        (checkRateLimit now s).2, false, true, none⟩ := by
  unfold generateText
  rcases hcr : checkRateLimit now s with ⟨⟨a, ra⟩, s1⟩
  rw [hcr] at hdeny
  simp_all

/-- Cache miss, admitted, upstream succeeds: record the success, store the
response, return it. -/
theorem generateText_ok {now : ℚ} {txt : String}
    {prompt : String} {t m : Option ℚ} {s : GeminiState}
    (hmiss : lookupFresh now (cacheKey t m prompt) s.cache = none)
    (hallow : (checkRateLimit now s).1.1 = true) :
    generateText now (.ok txt) prompt t m s =
      (let s1 := (checkRateLimit now s).2
       let cfg := applyOptions s1.config t m
       let s3 := addRequest true now { s1 with config := cfg }
       ⟨⟨some txt, none, none⟩,
         { s3 with cache := cacheSet (cacheKey t m prompt) ⟨⟨some txt, none, none⟩, now⟩ s3.cache },
         true, true, some cfg⟩) := by
  unfold generateText
  rcases hcr : checkRateLimit now s with ⟨⟨a, ra⟩, s1⟩
  rw [hcr] at hallow
  simp_all

/-- Cache miss, admitted, upstream throws with status 429. -/
theorem generateText_err429 {now : ℚ} {msg : String}
    {prompt : String} {t m : Option ℚ} {s : GeminiState}
    (hmiss : lookupFresh now (cacheKey t m prompt) s.cache = none)
    (hallow : (checkRateLimit now s).1.1 = true) :
    generateText now (.err 429 msg) prompt t m s =
      (let s1 := (checkRateLimit now s).2
       let cfg := applyOptions s1.config t m
       let s2 := { s1 with config := cfg }
       ⟨⟨none, some tooManyMsg, some (getTimeUntilNextRequest now s2)⟩,
         addRequest false now s2, true, true, some cfg⟩) := by
  unfold generateText
  rcases hcr : checkRateLimit now s with ⟨⟨a, ra⟩, s1⟩
  rw [hcr] at hallow
  simp_all

/-- Cache miss, admitted, upstream throws a non-429 error mentioning the
API key: the canned credential message is returned and **no attempt is
recorded**. -/
theorem generateText_errApiKey {now : ℚ} {status : Nat} {msg : String}
    {prompt : String} {t m : Option ℚ} {s : GeminiState}
    (hmiss : lookupFresh now (cacheKey t m prompt) s.cache = none)
    (hallow : (checkRateLimit now s).1.1 = true)
    (hst : status ≠ 429) (hkey : strContains msg "API key" = true) :
    generateText now (.err status msg) prompt t m s =
      (let s1 := (checkRateLimit now s).2
       let cfg := applyOptions s1.config t m
       ⟨⟨none, some apiKeyMsg, none⟩, { s1 with config := cfg }, true, true, some cfg⟩) := by
  unfold generateText
  rcases hcr : checkRateLimit now s with ⟨⟨a, ra⟩, s1⟩
  rw [hcr] at hallow
  simp_all

/-- Cache miss, admitted, any other upstream error: the canned generic
message is returned and the failure is recorded. -/
theorem generateText_errOther {now : ℚ} {status : Nat} {msg : String}
    {prompt : String} {t m : Option ℚ} {s : GeminiState}
    (hmiss : lookupFresh now (cacheKey t m prompt) s.cache = none)
    (hallow : (checkRateLimit now s).1.1 = true)
    (hst : status ≠ 429) (hkey : strContains msg "API key" = false) :
    generateText now (.err status msg) prompt t m s =
      (let s1 := (checkRateLimit now s).2
       let cfg := applyOptions s1.config t m
       ⟨⟨none, some genericFailMsg, none⟩,
         addRequest false now { s1 with config := cfg }, true, true, some cfg⟩) := by
  unfold generateText
  rcases hcr : checkRateLimit now s with ⟨⟨a, ra⟩, s1⟩
  rw [hcr] at hallow
  simp_all

/-- Once a call proceeds past cache and admission, the shared generation
config is exactly `applyOptions` of the previous config — whatever the
upstream outcome — and the upstream call is issued with that very config. -/
theorem generateText_config {now : ℚ} (up : UpstreamOutcome) {prompt : String}
    {t m : Option ℚ} {s : GeminiState}
    (hmiss : lookupFresh now (cacheKey t m prompt) s.cache = none)
    (hallow : (checkRateLimit now s).1.1 = true) :
    (generateText now up prompt t m s).state.config = applyOptions s.config t m
    ∧ (generateText now up prompt t m s).configUsed =
        some (applyOptions s.config t m) := by
  cases up with
  | ok txt =>
    rw [generateText_ok hmiss hallow]
    constructor
    · show (addRequest true now _).config = _
      rw [addRequest_config]
      show applyOptions (checkRateLimit now s).2.config t m = _
      rw [checkRateLimit_config]
    · show some (applyOptions (checkRateLimit now s).2.config t m) = _
      rw [checkRateLimit_config]
  | err status msg =>
    by_cases hst : status = 429
    · subst hst
      rw [generateText_err429 hmiss hallow]
      constructor
      · show (addRequest false now _).config = _
        rw [addRequest_config]
        show applyOptions (checkRateLimit now s).2.config t m = _
        rw [checkRateLimit_config]
      · show some (applyOptions (checkRateLimit now s).2.config t m) = _
        rw [checkRateLimit_config]
    · rcases hk : strContains msg "API key" with _ | _
      · rw [generateText_errOther hmiss hallow hst hk]
        constructor
        · show (addRequest false now _).config = _
          rw [addRequest_config]
          show applyOptions (checkRateLimit now s).2.config t m = _
          rw [checkRateLimit_config]
        · show some (applyOptions (checkRateLimit now s).2.config t m) = _
          rw [checkRateLimit_config]
      · rw [generateText_errApiKey hmiss hallow hst hk]
        constructor
        · show applyOptions (checkRateLimit now s).2.config t m = _
          rw [checkRateLimit_config]
        · show some (applyOptions (checkRateLimit now s).2.config t m) = _
          rw [checkRateLimit_config]

end Gemini

namespace Summarize

/-! ## The summarization route (`src/app/api/ai/summarize/route.ts`) -/

/-- `CACHE_DURATION` of the route (1 hour, in **seconds**). -/
def CACHE_DURATION : ℚ := 3600

/-- `STALE_WHILE_REVALIDATE` (24 hours, in seconds). -/
def STALE_WHILE_REVALIDATE : ℚ := 86400

/-- `MIN_INTERVAL` (1 request per second). -/
def MIN_INTERVAL : ℚ := 1000

/-- `MAX_INTERVAL` (10 seconds). -/
def MAX_INTERVAL : ℚ := 10000

/-- The `type` field of the request body: `'brief' | 'detailed' | 'action-items'`. -/
inductive SummaryType where
  | brief
  | detailed
  | actionItems
deriving Repr, DecidableEq

/-- The literal string of each summary type. -/
def typeStr : SummaryType → String
  | .brief => "brief"
  | .detailed => "detailed"
  | .actionItems => "action-items"

/-- `getModelConfig(type)`: the `(temperature, maxTokens)` options passed
to `generateText` for each summary type. -/
def getModelConfig : SummaryType → Option ℚ × Option ℚ
  | .brief => (some (3 / 10), some 1024)
  | .detailed => (some (1 / 2), some 2048)
  | .actionItems => (some (1 / 5), some 1024)

/-- `getPrompt(content, type)`. -/
def getPrompt (content : String) : SummaryType → String
  | .brief =>
      "Summarize this email in 2-3 sentences, focusing on the main points:\n\n"
        ++ content
  | .detailed =>
      "Provide a detailed summary of this email, including key points, context, and important details. Structure the summary in clear sections:\n\n"
        ++ content
  | .actionItems =>
      "Extract and list all action items, tasks, or requests from this email. Format each item clearly and include any deadlines or priorities mentioned:\n\n"
        ++ content

/-- `getCacheKey(content, type)`: `` `${type}:${sha256(content)}` ``.
The hash is a parameter. -/
def getCacheKey (h256 : String → String) (content : String)
    (ty : SummaryType) : String :=
  typeStr ty ++ ":" ++ h256 content

/-- `generateETag(summary)`: the md5 hash of the summary text (the hash is
a parameter). -/
def generateETag (hmd5 : String → String) (summary : String) : String :=
  hmd5 summary

/-- One entry of the route's `cache` map: `{ summary, timestamp, etag }`. -/
structure SummCacheEntry where
  summary : String
  timestamp : ℚ
  etag : String
deriving Repr, DecidableEq

/-- `getCachedResponse(cacheKey, ifNoneMatch)`: returns the consulted entry
together with its staleness flag, or `none`; also returns the cache after
the call (an entry past the stale limit is deleted).  Check order follows
the source exactly: missing entry, then ETag comparison (returning `null`,
commented `// Not modified`, *before* any age test), then the
stale-but-usable window, then freshness, then eviction. -/
def getCachedResponse (now : ℚ) (key : String) (ifNoneMatch : Option String)
    (cache : List (String × SummCacheEntry)) :
    Option (SummCacheEntry × Bool) × List (String × SummCacheEntry) :=
  match cacheGet key cache with
  | none => (none, cache)
  | some cached =>
    let age := (now - cached.timestamp) / 1000
    if ifNoneMatch = some cached.etag then
      (none, cache)
    else if CACHE_DURATION < age ∧ age ≤ STALE_WHILE_REVALIDATE then
      (some (cached, true), cache)
    else if age ≤ CACHE_DURATION then
      (some (cached, false), cache)
    else
      (none, cacheDelete key cache)

/-- `cacheResponse(cacheKey, summary)`: store the summary with a fresh
timestamp and its ETag; returns the ETag and the new cache. -/
def cacheResponse (hmd5 : String → String) (now : ℚ) (key summary : String)
    (cache : List (String × SummCacheEntry)) :
    String × List (String × SummCacheEntry) :=
  let etag := generateETag hmd5 summary
  (etag, cacheSet key ⟨summary, now, etag⟩ cache)

/-- All module-level mutable state of the route, plus the governor state it
drives through `generateText`. -/
structure EndpointState where
  cache : List (String × SummCacheEntry)
  lastRequestTime : ℚ
  currentInterval : ℚ
  g : Gemini.GeminiState
deriving Repr, DecidableEq

/-- A parsed, schema-valid request to the endpoint, with the wall clock at
arrival and the optional `If-None-Match` header. -/
structure SummRequest where
  content : String
  ty : SummaryType
  ifNoneMatch : Option String
  now : ℚ
deriving Repr, DecidableEq

/-- The observable outcome of one `POST`: HTTP status, body fields, cache
headers, the state afterwards, and bookkeeping flags — whether the
foreground path invoked the governor, whether the foreground or the
background (stale-refresh) path actually reached the upstream service, and
whether a background refresh was started. -/
structure PostOut where
  status : Nat
  summary : Option String
  errorMsg : Option String
  etagHeader : Option String
  xcache : Option String
  retryAfterHeader : Option Int
  state : EndpointState
  governorCalled : Bool
  upstreamCalled : Bool
  bgStarted : Bool
  bgUpstreamCalled : Bool
deriving Repr, DecidableEq

/-- Fixed body of the pacing-guard rejection. -/
def slowDownMsg : String := "Too many requests, please slow down."

/-- Fixed body of the empty-result branch. -/
def failedSummaryMsg : String := "Failed to generate summary"

/-- Everything the handler does once the pacing guard has been passed
(and `lastRequestTime`/`currentInterval` updated): cache probe (with the
ETag comparison), then either serve the cached summary (starting a
background refresh when stale) or run the governor in the foreground,
translate its errors to HTTP statuses and cache a successful summary.
The background refresh's effect on the state is applied to the returned
state; its failure never changes the foreground response.
The source tests `result.text` for JS truthiness, so an *empty* string
behaves like an absent one: the foreground `if (!result.text)` answers
`500` and the background `if (result.text)` skips `cacheResponse`. -/
def handleRequest (h256 hmd5 : String → String) (upstream : Gemini.UpstreamOutcome)
    (req : SummRequest) (st : EndpointState) : PostOut :=
  let now := req.now
  let key := getCacheKey h256 req.content req.ty
  let st1 : EndpointState :=
    { st with cache := (getCachedResponse now key req.ifNoneMatch st.cache).2 }
  match (getCachedResponse now key req.ifNoneMatch st.cache).1 with
  | some (entry, isStale) =>
    if isStale then
      -- stale: serve immediately, refresh in the background
      let tm := getModelConfig req.ty
      let bg := Gemini.generateText now upstream (getPrompt req.content req.ty)
        tm.1 tm.2 st1.g
      let st2 := { st1 with g := bg.state }
      let st3 :=
        -- .then(result => { if (result.text) { cacheResponse(...) } })
        match bg.response.text with
        | some t2 =>
          if t2 = "" then st2
          else { st2 with cache := (cacheResponse hmd5 now key t2 st2.cache).2 }
        | none => st2
      { status := 200, summary := some entry.summary, errorMsg := none,
        etagHeader := some entry.etag, xcache := some "STALE",
        retryAfterHeader := none, state := st3,
        governorCalled := false, upstreamCalled := false,
        bgStarted := true, bgUpstreamCalled := bg.upstreamCalled }
    else
      { status := 200, summary := some entry.summary, errorMsg := none,
        etagHeader := some entry.etag, xcache := some "HIT",
        retryAfterHeader := none, state := st1,
        governorCalled := false, upstreamCalled := false,
        bgStarted := false, bgUpstreamCalled := false }
  | none =>
    let tm := getModelConfig req.ty
    let r := Gemini.generateText now upstream (getPrompt req.content req.ty)
      tm.1 tm.2 st1.g
    let st2 := { st1 with g := r.state }
    match r.response.error with
    | some e =>
      { status := if strContains e "Rate limit" then 429 else 500,
        summary := none, errorMsg := some e,
        etagHeader := none, xcache := none,
        retryAfterHeader :=
          -- if (result.retryAfter) — falsy 0 sends no header
          match r.response.retryAfter with
          | some q => if q = 0 then none else some ⌈q / 1000⌉
          | none => none,
        state := st2, governorCalled := true, upstreamCalled := r.upstreamCalled,
        bgStarted := false, bgUpstreamCalled := false }
    | none =>
      -- if (!result.text): absent or empty text is a failure
      match r.response.text with
      | none =>
        { status := 500, summary := none, errorMsg := some failedSummaryMsg,
          etagHeader := none, xcache := none, retryAfterHeader := none,
          state := st2, governorCalled := true, upstreamCalled := r.upstreamCalled,
          bgStarted := false, bgUpstreamCalled := false }
      | some t2 =>
        if t2 = "" then
          { status := 500, summary := none, errorMsg := some failedSummaryMsg,
            etagHeader := none, xcache := none, retryAfterHeader := none,
            state := st2, governorCalled := true, upstreamCalled := r.upstreamCalled,
            bgStarted := false, bgUpstreamCalled := false }
        else
          { status := 200, summary := some t2, errorMsg := none,
            etagHeader := some (cacheResponse hmd5 now key t2 st2.cache).1,
            xcache := some "MISS", retryAfterHeader := none,
            state := { st2 with cache := (cacheResponse hmd5 now key t2 st2.cache).2 },
            governorCalled := true, upstreamCalled := r.upstreamCalled,
            bgStarted := false, bgUpstreamCalled := false }

/-- `POST(request)`: the pacing guard with multiplicative backoff runs
first — a request arriving sooner than `currentInterval` after the last
accepted one is rejected with `429` (growing the interval, capped at
`MAX_INTERVAL`, and sending `Retry-After`) before anything else happens;
an accepted request refreshes `lastRequestTime`, decays the interval
(floored at `MIN_INTERVAL`) and proceeds to `handleRequest`. -/
def POST (h256 hmd5 : String → String) (upstream : Gemini.UpstreamOutcome)
    (req : SummRequest) (st : EndpointState) : PostOut :=
  let now := req.now
  if now - st.lastRequestTime < st.currentInterval then
    let newInterval := min (st.currentInterval * (3 / 2)) MAX_INTERVAL
    { status := 429, summary := none, errorMsg := some slowDownMsg,
      etagHeader := none, xcache := none,
      retryAfterHeader := some ⌈newInterval / 1000⌉,
      state := { st with currentInterval := newInterval },
      governorCalled := false, upstreamCalled := false,
      bgStarted := false, bgUpstreamCalled := false }
  else
    handleRequest h256 hmd5 upstream req
      { st with lastRequestTime := now,
                currentInterval := max MIN_INTERVAL (st.currentInterval * (4 / 5)) }

/-! ## Structural lemmas about the route -/

/-- A present entry whose stored validator matches the caller's
`If-None-Match` makes `getCachedResponse` answer `null` (the source's
`// Not modified` line) without touching the cache — regardless of age. -/
theorem getCachedResponse_etagMatch {now : ℚ} {key : String}
    {cache : List (String × SummCacheEntry)} {e : SummCacheEntry}
    (hget : cacheGet key cache = some e) :
    getCachedResponse now key (some e.etag) cache = (none, cache) := by
  unfold getCachedResponse
  simp [hget]

/-- A present, non-validator-matching entry in the stale window. -/
theorem getCachedResponse_stale {now : ℚ} {key : String} {inm : Option String}
    {cache : List (String × SummCacheEntry)} {e : SummCacheEntry}
    (hget : cacheGet key cache = some e) (hinm : inm ≠ some e.etag)
    (h1 : CACHE_DURATION < (now - e.timestamp) / 1000)
    (h2 : (now - e.timestamp) / 1000 ≤ STALE_WHILE_REVALIDATE) :
    getCachedResponse now key inm cache = (some (e, true), cache) := by
  unfold getCachedResponse
  simp only [hget]
  rw [if_neg hinm, if_pos ⟨h1, h2⟩]

/-- A present, non-validator-matching fresh entry. -/
theorem getCachedResponse_fresh {now : ℚ} {key : String} {inm : Option String}
    {cache : List (String × SummCacheEntry)} {e : SummCacheEntry}
    (hget : cacheGet key cache = some e) (hinm : inm ≠ some e.etag)
    (h1 : (now - e.timestamp) / 1000 ≤ CACHE_DURATION) :
    getCachedResponse now key inm cache = (some (e, false), cache) := by
  unfold getCachedResponse
  simp only [hget]
  rw [if_neg hinm, if_neg (fun hc => absurd h1 (not_le.mpr hc.1)), if_pos h1]

/-- A missing key is a miss. -/
theorem getCachedResponse_none {now : ℚ} {key : String} {inm : Option String}
    {cache : List (String × SummCacheEntry)}
    (hget : cacheGet key cache = none) :
    getCachedResponse now key inm cache = (none, cache) := by
  unfold getCachedResponse
  simp [hget]

/-- `handleRequest` on a fresh, non-validator-matching hit: serve the
entry, change nothing. -/
theorem handleRequest_fresh (h256 hmd5 : String → String)
    (up : Gemini.UpstreamOutcome) (req : SummRequest) (st : EndpointState)
    (e : SummCacheEntry)
    (hget : cacheGet (getCacheKey h256 req.content req.ty) st.cache = some e)
    (hinm : req.ifNoneMatch ≠ some e.etag)
    (h1 : (req.now - e.timestamp) / 1000 ≤ CACHE_DURATION) :
    handleRequest h256 hmd5 up req st =
      { status := 200, summary := some e.summary, errorMsg := none,
        etagHeader := some e.etag, xcache := some "HIT",
        retryAfterHeader := none, state := st,
        governorCalled := false, upstreamCalled := false,
        bgStarted := false, bgUpstreamCalled := false } := by
  simp only [handleRequest]
  rw [getCachedResponse_fresh hget hinm h1]
  rfl

/-- `handleRequest` on a stale, non-validator-matching hit: serve the old
entry immediately, run the refresh "in the background" (its effect lands in
the returned state; a refresh without truthy text — absent *or* empty —
changes nothing). -/
theorem handleRequest_stale (h256 hmd5 : String → String)
    (up : Gemini.UpstreamOutcome) (req : SummRequest) (st : EndpointState)
    (e : SummCacheEntry)
    (hget : cacheGet (getCacheKey h256 req.content req.ty) st.cache = some e)
    (hinm : req.ifNoneMatch ≠ some e.etag)
    (h1 : CACHE_DURATION < (req.now - e.timestamp) / 1000)
    (h2 : (req.now - e.timestamp) / 1000 ≤ STALE_WHILE_REVALIDATE) :
    handleRequest h256 hmd5 up req st =
      (let bg := Gemini.generateText req.now up (getPrompt req.content req.ty)
          (getModelConfig req.ty).1 (getModelConfig req.ty).2 st.g
       { status := 200, summary := some e.summary, errorMsg := none,
         etagHeader := some e.etag, xcache := some "STALE",
         retryAfterHeader := none,
         state :=
           match bg.response.text with
           | some t2 =>
             (if t2 = "" then { st with g := bg.state }
              else
                ({ st with
                   g := bg.state
                   cache := (cacheResponse hmd5 req.now
                     (getCacheKey h256 req.content req.ty) t2 st.cache).2 }))
           | none => { st with g := bg.state },
         governorCalled := false, upstreamCalled := false,
         bgStarted := true, bgUpstreamCalled := bg.upstreamCalled }) := by
  simp only [handleRequest]
  rw [getCachedResponse_stale hget hinm h1 h2]
  rfl

/-- A full `POST` that passes the guard and finds a fresh,
non-validator-matching entry serves it as a `HIT` with no upstream work. -/
theorem POST_fresh_hit (h256 hmd5 : String → String)
    (up2 : Gemini.UpstreamOutcome) (req2 : SummRequest) (σ : EndpointState)
    (e2 : SummCacheEntry)
    (hthr : ¬(req2.now - σ.lastRequestTime < σ.currentInterval))
    (hget : cacheGet (getCacheKey h256 req2.content req2.ty) σ.cache = some e2)
    (hinm : req2.ifNoneMatch ≠ some e2.etag)
    (h1 : (req2.now - e2.timestamp) / 1000 ≤ CACHE_DURATION) :
    (POST h256 hmd5 up2 req2 σ).summary = some e2.summary
    ∧ (POST h256 hmd5 up2 req2 σ).xcache = some "HIT"
    ∧ (POST h256 hmd5 up2 req2 σ).upstreamCalled = false
    ∧ (POST h256 hmd5 up2 req2 σ).bgStarted = false := by
  unfold POST
  rw [if_neg hthr]
  rw [handleRequest_fresh h256 hmd5 up2 req2
    { σ with
      lastRequestTime := req2.now
      currentInterval := max MIN_INTERVAL (σ.currentInterval * (4 / 5)) } e2
    hget hinm h1]
  exact ⟨rfl, rfl, rfl, rfl⟩

/-- `handleRequest` never touches the pacing fields. -/
theorem handleRequest_pacing (h256 hmd5 : String → String)
    (up : Gemini.UpstreamOutcome) (req : SummRequest) (st : EndpointState) :
    (handleRequest h256 hmd5 up req st).state.lastRequestTime = st.lastRequestTime
    ∧ (handleRequest h256 hmd5 up req st).state.currentInterval =
        st.currentInterval := by
  unfold handleRequest
  rcases hgc : (getCachedResponse req.now (getCacheKey h256 req.content req.ty)
      req.ifNoneMatch st.cache).1 with _ | ⟨entry, isStale⟩ <;>
    simp only [hgc]
  · rcases (Gemini.generateText req.now up (getPrompt req.content req.ty)
        (getModelConfig req.ty).1 (getModelConfig req.ty).2 _).response.error with _ | e
    · rcases (Gemini.generateText req.now up (getPrompt req.content req.ty)
          (getModelConfig req.ty).1 (getModelConfig req.ty).2 _).response.text with _ | t2
      · exact ⟨rfl, rfl⟩
      · constructor <;> by_cases ht : t2 = "" <;> simp [ht]
    · exact ⟨rfl, rfl⟩
  · rcases isStale with _ | _
    · exact ⟨rfl, rfl⟩
    · rcases (Gemini.generateText req.now up (getPrompt req.content req.ty)
          (getModelConfig req.ty).1 (getModelConfig req.ty).2 _).response.text with _ | t2
      · exact ⟨rfl, rfl⟩
      · constructor <;> by_cases ht : t2 = "" <;> simp [ht]

end Summarize

/-! # The claims -/

/-- **C4** — counterexample to the claim as stated: a request passing
`temperature: 0` and one omitting the option differ in the temperature
field, yet the `|| 'default'` coercion gives both the same fingerprint. -/
theorem claim_C4_counterexample :
    some (0 : ℚ) ≠ (none : Option ℚ)
    ∧ Gemini.cacheKey (some 0) none "hello" = Gemini.cacheKey none none "hello" :=
  ⟨by simp, by decide⟩

/-- **C4** (amended): the fingerprint is a deterministic pure function of
`(temperature, maxTokens, prompt)` — equal inputs give equal keys — and it
is injective in all three components *except* that a temperature or
maxTokens equal to `0` is indistinguishable from an absent option (both
are rendered `"default"` by the falsy `||` coercion). -/
theorem claim_C4_fingerprint_stability (t m t' m' : Option ℚ) (p p' : String) :
    Gemini.cacheKey t m p = Gemini.cacheKey t' m' p' ↔
      Gemini.normOpt t = Gemini.normOpt t' ∧ Gemini.normOpt m = Gemini.normOpt m'
        ∧ p = p' :=
  Gemini.cacheKey_eq_iff t m t' m' p p'

/-- **C2** — counterexample to the claim as stated: with the breaker open
and `now - lastFailureAtMs` exactly equal to `resetTimeoutMs` (so no longer
`< resetTimeoutMs`), an admission check still leaves the breaker open (the
source transitions only on a *strict* `>` comparison). -/
theorem claim_C2_counterexample :
    (Gemini.checkRateLimit 30000
        { requests := [], failures := 3, lastFailureTime := 0, isOpen := true,
          config := Gemini.initialGenerationConfig, cache := [] }).2.isOpen = true
    ∧ ¬((30000 : ℚ) - 0 < Gemini.resetTimeout) := by
  constructor
  · rw [Gemini.checkRateLimit_isOpen]
    refine ⟨rfl, ?_⟩
    norm_num [Gemini.resetTimeout]
  · norm_num [Gemini.resetTimeout]

/-- **C2** (amended): at every admission check, the breaker remains open
exactly while `now - lastFailureAtMs ≤ resetTimeoutMs`; once strictly more
time has elapsed, that admission check itself closes the breaker (resetting
the failure counter to zero) and admits the probe call when the window has
capacity.  Failures increment the counter and refresh `lastFailureAtMs`;
every success decrements the counter with a floor of zero, and the breaker
is closed once the counter reaches zero. -/
theorem claim_C2_breaker_lifecycle (now : ℚ) (s : Gemini.GeminiState) :
    ((Gemini.checkRateLimit now s).2.isOpen = true ↔
        s.isOpen = true ∧ now - s.lastFailureTime ≤ Gemini.resetTimeout)
    ∧ (s.isOpen = true → Gemini.resetTimeout < now - s.lastFailureTime →
        (Gemini.checkRateLimit now s).2.isOpen = false
        ∧ (Gemini.checkRateLimit now s).2.failures = 0
        ∧ ((s.requests.filter (fun ts => now - Gemini.windowSize < ts)).length <
              Gemini.maxRequests →
            (Gemini.checkRateLimit now s).1.1 = true))
    ∧ ((Gemini.addRequest false now s).failures = s.failures + 1
        ∧ (Gemini.addRequest false now s).lastFailureTime = now)
    ∧ ((Gemini.addRequest true now s).failures = s.failures - 1
        ∧ (s.failures ≤ 1 → (Gemini.addRequest true now s).isOpen = false)) := by
  refine ⟨Gemini.checkRateLimit_isOpen now s, ?_, ?_, ?_⟩
  · intro h1 h2
    obtain ⟨ha, hb, hc⟩ := Gemini.checkRateLimit_reset now s h1 h2
    exact ⟨ha, hb, fun hlen => by rw [hc hlen]⟩
  · unfold Gemini.addRequest
    simp
  · unfold Gemini.addRequest
    refine ⟨by simp, fun hle => ?_⟩
    have : s.failures - 1 = 0 := by omega
    simp [this]

/-- **C2** witness: a concrete open breaker, past the timeout, is closed by
the admission check. -/
theorem claim_C2_witness :
    (Gemini.checkRateLimit 30001
        { requests := [], failures := 3, lastFailureTime := 0, isOpen := true,
          config := Gemini.initialGenerationConfig, cache := [] }).2.isOpen = false :=
  ((claim_C2_breaker_lifecycle 30001
      { requests := [], failures := 3, lastFailureTime := 0, isOpen := true,
        config := Gemini.initialGenerationConfig, cache := [] }).2.1
    rfl (by norm_num [Gemini.resetTimeout])).1

/-- **C6** — counterexample to the claim as stated: the claim says an open
circuit makes the check deny; but with the breaker open and the reset
timeout strictly elapsed, the check closes the breaker and *allows* the
call. -/
theorem claim_C6_counterexample :
    ({ requests := [], failures := 3, lastFailureTime := 0, isOpen := true,
        config := Gemini.initialGenerationConfig, cache := [] } :
          Gemini.GeminiState).isOpen = true
    ∧ (Gemini.checkRateLimit 30001
        { requests := [], failures := 3, lastFailureTime := 0, isOpen := true,
          config := Gemini.initialGenerationConfig, cache := [] }).1 = (true, 0) := by
  refine ⟨rfl, ?_⟩
  simp only [Gemini.checkRateLimit_fst]
  rw [if_neg, if_neg]
  · norm_num [Gemini.maxRequests]
  · rintro ⟨_, hc⟩
    exact hc (by norm_num [Gemini.resetTimeout])

/-- **C6** (amended): `checkAdmission` first prunes away timestamps at or
older than `now - windowSizeMs` (the kept ones are the strictly newer
ones, all drawn from the previous sequence — the check appends nothing);
if the circuit is open and the reset timeout has not strictly elapsed it
denies with `retryAfterMs = resetTimeoutMs - (now - lastFailureAtMs)`
(necessarily ≥ 0, no clamping needed), taking precedence over the count
check; otherwise (in particular when an open circuit is past its timeout
and has just been closed by this check), if the pruned request count is at
least `maxRequests` it denies with
`retryAfterMs = max 0 ((requests[0] + windowSizeMs) - now)`, and otherwise
it allows with `retryAfterMs = 0`. -/
theorem claim_C6_check_admission (now : ℚ) (s : Gemini.GeminiState) :
    ((Gemini.checkRateLimit now s).2.requests =
        s.requests.filter (fun ts => now - Gemini.windowSize < ts))
    ∧ (∀ ts ∈ (Gemini.checkRateLimit now s).2.requests, ts ∈ s.requests)
    ∧ (s.isOpen = true → now - s.lastFailureTime ≤ Gemini.resetTimeout →
        (Gemini.checkRateLimit now s).1 =
          (false, Gemini.resetTimeout - (now - s.lastFailureTime))
        ∧ 0 ≤ Gemini.resetTimeout - (now - s.lastFailureTime))
    ∧ (¬(s.isOpen = true ∧ now - s.lastFailureTime ≤ Gemini.resetTimeout) →
        (Gemini.maxRequests ≤
            (s.requests.filter (fun ts => now - Gemini.windowSize < ts)).length →
          (Gemini.checkRateLimit now s).1 =
            (false, max 0 ((s.requests.filter
              (fun ts => now - Gemini.windowSize < ts)).headI
                + Gemini.windowSize - now)))
        ∧ ((s.requests.filter (fun ts => now - Gemini.windowSize < ts)).length <
              Gemini.maxRequests →
          (Gemini.checkRateLimit now s).1 = (true, 0))) := by
  refine ⟨?_, ?_, ?_, ?_⟩
  · rw [Gemini.checkRateLimit_state]
    by_cases h : s.isOpen = true ∧ Gemini.resetTimeout < now - s.lastFailureTime <;>
      simp [h]
  · intro ts hts
    rw [Gemini.checkRateLimit_state] at hts
    by_cases h : s.isOpen = true ∧ Gemini.resetTimeout < now - s.lastFailureTime <;>
      simp only [h, if_true, if_false, if_pos, if_neg, not_false_eq_true] at hts <;>
      exact List.mem_of_mem_filter hts
  · intro h1 h2
    refine ⟨?_, by linarith⟩
    simp only [Gemini.checkRateLimit_fst]
    rw [if_pos ⟨h1, not_lt.mpr h2⟩]
  · intro h
    constructor
    · intro hlen
      simp only [Gemini.checkRateLimit_fst]
      rw [if_neg (fun hc => h ⟨hc.1, not_lt.mp hc.2⟩), if_pos hlen]
    · intro hlen
      simp only [Gemini.checkRateLimit_fst]
      rw [if_neg (fun hc => h ⟨hc.1, not_lt.mp hc.2⟩), if_neg (by omega)]

/-- **C6** witness: a concrete closed-breaker, empty-window state is
admitted with `retryAfter = 0`. -/
theorem claim_C6_witness :
    (Gemini.checkRateLimit 100 Gemini.initialState).1 = (true, 0) :=
  ((claim_C6_check_admission 100 Gemini.initialState).2.2.2
    (by rintro ⟨h, _⟩; exact absurd h (by simp [Gemini.initialState]))).2
    (by simp [Gemini.initialState, Gemini.maxRequests])

/-- **C3** — counterexample to the claim as stated: an upstream failure
whose cause is an invalid API credential (status 400, message mentioning
the API key) is *not* recorded — the failure counter stays at 0 and no
window slot is consumed, so it does not contribute to the circuit
breaker's consecutive-failure count. -/
theorem claim_C3_counterexample :
    (Gemini.generateText 0 (.err 400 "API key not valid") "p" none none
        Gemini.initialState).upstreamCalled = true
    ∧ (Gemini.generateText 0 (.err 400 "API key not valid") "p" none none
        Gemini.initialState).state.failures = 0
    ∧ (Gemini.generateText 0 (.err 400 "API key not valid") "p" none none
        Gemini.initialState).state.requests = [] := by
  norm_num [Gemini.generateText, Gemini.initialState, Gemini.lookupFresh,
    Gemini.checkRateLimit, Gemini.checkCount, Gemini.windowSize, Gemini.maxRequests,
    Gemini.resetTimeout, Gemini.applyOptions,
    show strContains "API key not valid" "API key" = true from by decide]

/-- **C3** (amended): every non-rate-limit upstream failure is surfaced as
a fixed canned message — the raw upstream error never crosses the governor
boundary — and is recorded as a failure (incrementing the consecutive-
failure counter, refreshing the failure time and consuming a window slot),
*except* credential errors: an error whose message mentions the API key is
answered with the fixed configuration-error message and is not recorded at
all. -/
theorem claim_C3_upstream_failure (now : ℚ) (status : Nat) (msg prompt : String)
    (t m : Option ℚ) (s : Gemini.GeminiState)
    (hmiss : Gemini.lookupFresh now (Gemini.cacheKey t m prompt) s.cache = none)
    (hallow : (Gemini.checkRateLimit now s).1.1 = true)
    (hst : status ≠ 429) :
    (strContains msg "API key" = false →
        (Gemini.generateText now (.err status msg) prompt t m s).response =
          ⟨none, some Gemini.genericFailMsg, none⟩
        ∧ (Gemini.generateText now (.err status msg) prompt t m s).state.failures =
            (Gemini.checkRateLimit now s).2.failures + 1
        ∧ (Gemini.generateText now (.err status msg) prompt t m s).state.lastFailureTime
            = now
        ∧ (Gemini.generateText now (.err status msg) prompt t m s).state.requests =
            (Gemini.checkRateLimit now s).2.requests ++ [now])
    ∧ (strContains msg "API key" = true →
        (Gemini.generateText now (.err status msg) prompt t m s).response =
          ⟨none, some Gemini.apiKeyMsg, none⟩
        ∧ (Gemini.generateText now (.err status msg) prompt t m s).state.failures =
            (Gemini.checkRateLimit now s).2.failures
        ∧ (Gemini.generateText now (.err status msg) prompt t m s).state.requests =
            (Gemini.checkRateLimit now s).2.requests) := by
  constructor
  · intro hk
    rw [Gemini.generateText_errOther hmiss hallow hst hk]
    unfold Gemini.addRequest
    simp
  · intro hk
    rw [Gemini.generateText_errApiKey hmiss hallow hst hk]
    simp

/-- **C3** witness: a concrete non-credential upstream failure yields the
canned generic message. -/
theorem claim_C3_witness :
    (Gemini.generateText 5 (.err 500 "boom") "p" none none
        Gemini.initialState).response = ⟨none, some Gemini.genericFailMsg, none⟩ :=
  ((claim_C3_upstream_failure 5 500 "boom" "p" none none Gemini.initialState
      (by simp [Gemini.lookupFresh, Gemini.initialState])
      (by simp only [Gemini.checkRateLimit_fst]
          rw [if_neg (by rintro ⟨h, _⟩; exact absurd h (by simp [Gemini.initialState])),
            if_neg (by simp [Gemini.initialState, Gemini.maxRequests])])
      (by norm_num)).1 (by decide)).1

/-- **C7**: with identical inputs, a first admitted, successful call and a
second call within the fresh cache window issue exactly one upstream call:
the first one returns the generated text and stores it, the second (for
*any* upstream behaviour) returns the identical cached payload without any
upstream call, admission check, or state change. -/
theorem claim_C7_cache_determinism (t1 t2 : ℚ) (txt prompt : String)
    (temp mtok : Option ℚ) (u2 : Gemini.UpstreamOutcome) (s : Gemini.GeminiState)
    (hmiss : Gemini.lookupFresh t1 (Gemini.cacheKey temp mtok prompt) s.cache = none)
    (hallow : (Gemini.checkRateLimit t1 s).1.1 = true)
    (hfresh : t2 - t1 < Gemini.CACHE_DURATION) :
    (Gemini.generateText t1 (.ok txt) prompt temp mtok s).upstreamCalled = true
    ∧ (Gemini.generateText t1 (.ok txt) prompt temp mtok s).response =
        ⟨some txt, none, none⟩
    ∧ Gemini.generateText t2 u2 prompt temp mtok
        (Gemini.generateText t1 (.ok txt) prompt temp mtok s).state =
      ⟨(Gemini.generateText t1 (.ok txt) prompt temp mtok s).response,
        (Gemini.generateText t1 (.ok txt) prompt temp mtok s).state,
        false, false, none⟩ := by
  refine ⟨?_, ?_, ?_⟩
  · rw [Gemini.generateText_ok hmiss hallow]
  · rw [Gemini.generateText_ok hmiss hallow]
  · have hhit : Gemini.lookupFresh t2 (Gemini.cacheKey temp mtok prompt)
        (Gemini.generateText t1 (.ok txt) prompt temp mtok s).state.cache =
        some (Gemini.generateText t1 (.ok txt) prompt temp mtok s).response := by
      rw [Gemini.generateText_ok hmiss hallow]
      simp [Gemini.lookupFresh, hfresh]
    exact Gemini.generateText_hit u2 hhit

/-- **C7** witness. -/
theorem claim_C7_witness :
    (Gemini.generateText 1000 (.ok "S") "p" none none
        Gemini.initialState).upstreamCalled = true
    ∧ (Gemini.generateText 1000 (.ok "S") "p" none none
        Gemini.initialState).response = ⟨some "S", none, none⟩
    ∧ Gemini.generateText 2000 (.err 500 "x") "p" none none
        (Gemini.generateText 1000 (.ok "S") "p" none none Gemini.initialState).state =
      ⟨(Gemini.generateText 1000 (.ok "S") "p" none none Gemini.initialState).response,
        (Gemini.generateText 1000 (.ok "S") "p" none none Gemini.initialState).state,
        false, false, none⟩ :=
  claim_C7_cache_determinism 1000 2000 "S" "p" none none (.err 500 "x")
    Gemini.initialState
    (by simp [Gemini.lookupFresh, Gemini.initialState])
    (by simp only [Gemini.checkRateLimit_fst]
        rw [if_neg (by rintro ⟨h, _⟩; exact absurd h (by simp [Gemini.initialState])),
          if_neg (by simp [Gemini.initialState, Gemini.maxRequests])])
    (by norm_num [Gemini.CACHE_DURATION])

/-- **C9**: a call that proceeds to the upstream service mutates the shared
model's generation configuration in place — a nonzero `temperature` or
`maxTokens` overwrites the corresponding field and is never restored, an
omitted (or falsy `0`) option leaves the field at its *most recently set*
value (not the configured default), and no other field (`topK`, `topP`) is
changed; the upstream call itself is issued with exactly the mutated
config, whatever the outcome. -/
theorem claim_C9_config_mutation (now : ℚ) (up : Gemini.UpstreamOutcome)
    (prompt : String) (temp mtok : Option ℚ) (s : Gemini.GeminiState)
    (hmiss : Gemini.lookupFresh now (Gemini.cacheKey temp mtok prompt) s.cache = none)
    (hallow : (Gemini.checkRateLimit now s).1.1 = true) :
    ((Gemini.generateText now up prompt temp mtok s).state.config.temperature =
        temp.elim s.config.temperature
          (fun q => if q = 0 then s.config.temperature else q))
    ∧ ((Gemini.generateText now up prompt temp mtok s).state.config.maxOutputTokens =
        mtok.elim s.config.maxOutputTokens
          (fun q => if q = 0 then s.config.maxOutputTokens else q))
    ∧ (Gemini.generateText now up prompt temp mtok s).state.config.topK =
        s.config.topK
    ∧ (Gemini.generateText now up prompt temp mtok s).state.config.topP =
        s.config.topP
    ∧ (Gemini.generateText now up prompt temp mtok s).configUsed =
        some (Gemini.generateText now up prompt temp mtok s).state.config := by
  obtain ⟨hcfg, hused⟩ := Gemini.generateText_config up hmiss hallow
  obtain ⟨ha, hb, hc, hd⟩ := Gemini.applyOptions_spec s.config temp mtok
  rw [hcfg, hused]
  refine ⟨?_, ?_, hc, hd, rfl⟩
  · rw [ha]; rcases temp with _ | q <;> rfl
  · rw [hb]; rcases mtok with _ | q <;> rfl

/-- **C9** witness: passing `temperature: 0.7` (with `maxTokens: 0`, a
falsy value) sets the shared temperature to `0.7` and leaves
`maxOutputTokens` at its previous value. -/
theorem claim_C9_witness :
    (Gemini.generateText 0 (.ok "S") "p" (some (7 / 10)) (some 0)
        Gemini.initialState).state.config.temperature = 7 / 10
    ∧ (Gemini.generateText 0 (.ok "S") "p" (some (7 / 10)) (some 0)
        Gemini.initialState).state.config.maxOutputTokens = 2048 := by
  have h := claim_C9_config_mutation 0 (.ok "S") "p" (some (7 / 10)) (some 0)
    Gemini.initialState
    (by simp [Gemini.lookupFresh, Gemini.initialState])
    (by simp only [Gemini.checkRateLimit_fst]
        rw [if_neg (by rintro ⟨h, _⟩; exact absurd h (by simp [Gemini.initialState])),
          if_neg (by simp [Gemini.initialState, Gemini.maxRequests])])
  refine ⟨h.1.trans ?_, h.2.1.trans ?_⟩
  · norm_num
  · norm_num [Gemini.initialState, Gemini.initialGenerationConfig]

/-- **C10**: the response cache is written only on upstream success — any
call whose result carries an error leaves the cache untouched — and
therefore, whenever every cached entry is success-shaped (text present, no
error, no retry hint), this invariant is preserved by every call, and every
cache hit returns a success-shaped response. -/
theorem claim_C10_cache_on_success (now : ℚ) (up : Gemini.UpstreamOutcome)
    (prompt : String) (temp mtok : Option ℚ) (s : Gemini.GeminiState) :
    ((Gemini.generateText now up prompt temp mtok s).response.error.isSome = true →
        (Gemini.generateText now up prompt temp mtok s).state.cache = s.cache)
    ∧ ((∀ kv ∈ s.cache, Gemini.successShaped kv.2.response) →
        (∀ kv ∈ (Gemini.generateText now up prompt temp mtok s).state.cache,
            Gemini.successShaped kv.2.response)
        ∧ ((Gemini.generateText now up prompt temp mtok s).admissionChecked = false →
            Gemini.successShaped
              (Gemini.generateText now up prompt temp mtok s).response)) := by
  rcases hlf : Gemini.lookupFresh now (Gemini.cacheKey temp mtok prompt) s.cache
    with _ | r
  case some =>
    rw [Gemini.generateText_hit up hlf]
    refine ⟨fun _ => rfl, fun hinv => ⟨hinv, fun _ => ?_⟩⟩
    obtain ⟨e, hget, hresp⟩ := Gemini.lookupFresh_some hlf
    exact hresp ▸ hinv _ (Gemini.cacheGet_mem hget)
  case none =>
    rcases ha : (Gemini.checkRateLimit now s).1.1 with _ | _
    · rw [Gemini.generateText_denied up hlf ha]
      refine ⟨fun _ => Gemini.checkRateLimit_cache now s,
        fun hinv => ⟨?_, fun hfalse => by simp at hfalse⟩⟩
      intro kv hkv
      have hkv' : kv ∈ (Gemini.checkRateLimit now s).2.cache := hkv
      rw [Gemini.checkRateLimit_cache] at hkv'
      exact hinv _ hkv'
    · cases up with
      | ok txt =>
        rw [Gemini.generateText_ok hlf ha]
        refine ⟨fun habs => by simp at habs,
          fun hinv => ⟨?_, fun hfalse => by simp at hfalse⟩⟩
        intro kv hkv
        have hkv' : kv ∈ (Gemini.cacheKey temp mtok prompt,
            (⟨⟨some txt, none, none⟩, now⟩ : Gemini.CacheEntry)) ::
            (Gemini.checkRateLimit now s).2.cache := hkv
        rw [Gemini.checkRateLimit_cache] at hkv'
        rcases List.mem_cons.mp hkv' with hkv2 | hkv2
        · subst hkv2; exact ⟨rfl, rfl, rfl⟩
        · exact hinv _ hkv2
      | err status msg =>
        by_cases hst : status = 429
        · subst hst
          rw [Gemini.generateText_err429 hlf ha]
          refine ⟨fun _ => Gemini.checkRateLimit_cache now s,
            fun hinv => ⟨?_, fun hfalse => by simp at hfalse⟩⟩
          intro kv hkv
          have hkv' : kv ∈ (Gemini.checkRateLimit now s).2.cache := hkv
          rw [Gemini.checkRateLimit_cache] at hkv'
          exact hinv _ hkv'
        · rcases hk : strContains msg "API key" with _ | _
          · rw [Gemini.generateText_errOther hlf ha hst hk]
            refine ⟨fun _ => Gemini.checkRateLimit_cache now s,
              fun hinv => ⟨?_, fun hfalse => by simp at hfalse⟩⟩
            intro kv hkv
            have hkv' : kv ∈ (Gemini.checkRateLimit now s).2.cache := hkv
            rw [Gemini.checkRateLimit_cache] at hkv'
            exact hinv _ hkv'
          · rw [Gemini.generateText_errApiKey hlf ha hst hk]
            refine ⟨fun _ => Gemini.checkRateLimit_cache now s,
              fun hinv => ⟨?_, fun hfalse => by simp at hfalse⟩⟩
            intro kv hkv
            have hkv' : kv ∈ (Gemini.checkRateLimit now s).2.cache := hkv
            rw [Gemini.checkRateLimit_cache] at hkv'
            exact hinv _ hkv'

/-- **C10** witness: a concrete failing call (upstream 500) leaves the
cache empty, and a hit on a success-shaped cache yields a success-shaped
response. -/
theorem claim_C10_witness :
    (Gemini.generateText 0 (.err 500 "x") "p" none none
        Gemini.initialState).state.cache = [] :=
  (claim_C10_cache_on_success 0 (.err 500 "x") "p" none none Gemini.initialState).1
    (by norm_num [Gemini.generateText, Gemini.initialState, Gemini.lookupFresh,
      Gemini.checkRateLimit, Gemini.checkCount, Gemini.windowSize, Gemini.maxRequests,
      Gemini.resetTimeout, Gemini.applyOptions,
      show strContains "x" "API key" = false from by decide])

/-- **C8**: the summarization endpoint enforces a single global minimum
interval between invocations, independent of the admission controller: a
request arriving sooner than the current interval after the last accepted
request is rejected with 429 and a `Retry-After` hint while the interval
grows multiplicatively (bounded above by `MAX_INTERVAL`) and the governor
is never reached; an accepted request refreshes the last-accepted time and
decays the interval toward `MIN_INTERVAL`. -/
theorem claim_C8_pacing_guard (h256 hmd5 : String → String)
    (up : Gemini.UpstreamOutcome) (req : Summarize.SummRequest)
    (st : Summarize.EndpointState) :
    (req.now - st.lastRequestTime < st.currentInterval →
      (Summarize.POST h256 hmd5 up req st).status = 429
      ∧ (Summarize.POST h256 hmd5 up req st).retryAfterHeader =
          some ⌈min (st.currentInterval * (3 / 2)) Summarize.MAX_INTERVAL / 1000⌉
      ∧ (Summarize.POST h256 hmd5 up req st).state.currentInterval =
          min (st.currentInterval * (3 / 2)) Summarize.MAX_INTERVAL
      ∧ (Summarize.POST h256 hmd5 up req st).state.currentInterval ≤
          Summarize.MAX_INTERVAL
      ∧ (0 ≤ st.currentInterval → st.currentInterval ≤ Summarize.MAX_INTERVAL →
          st.currentInterval ≤ (Summarize.POST h256 hmd5 up req st).state.currentInterval)
      ∧ (Summarize.POST h256 hmd5 up req st).state.lastRequestTime =
          st.lastRequestTime
      ∧ (Summarize.POST h256 hmd5 up req st).governorCalled = false
      ∧ (Summarize.POST h256 hmd5 up req st).upstreamCalled = false
      ∧ (Summarize.POST h256 hmd5 up req st).bgStarted = false
      ∧ (Summarize.POST h256 hmd5 up req st).state.cache = st.cache
      ∧ (Summarize.POST h256 hmd5 up req st).state.g = st.g)
    ∧ (¬(req.now - st.lastRequestTime < st.currentInterval) →
        (Summarize.POST h256 hmd5 up req st).state.lastRequestTime = req.now
        ∧ (Summarize.POST h256 hmd5 up req st).state.currentInterval =
            max Summarize.MIN_INTERVAL (st.currentInterval * (4 / 5))
        ∧ Summarize.MIN_INTERVAL ≤
            (Summarize.POST h256 hmd5 up req st).state.currentInterval
        ∧ (Summarize.MIN_INTERVAL ≤ st.currentInterval →
            (Summarize.POST h256 hmd5 up req st).state.currentInterval ≤
              st.currentInterval)) := by
  constructor
  · intro h
    unfold Summarize.POST
    rw [if_pos h]
    refine ⟨rfl, rfl, rfl, min_le_right _ _, fun h0 hmax => le_min (by linarith) hmax,
      rfl, rfl, rfl, rfl, rfl, rfl⟩
  · intro h
    unfold Summarize.POST
    rw [if_neg h]
    obtain ⟨hl, hi⟩ := Summarize.handleRequest_pacing h256 hmd5 up req
      { st with lastRequestTime := req.now,
                currentInterval := max Summarize.MIN_INTERVAL (st.currentInterval * (4 / 5)) }
    refine ⟨hl, hi, ?_, ?_⟩
    · rw [hi]; exact le_max_left _ _
    · intro hmin
      rw [hi]
      have h0 : (0 : ℚ) ≤ st.currentInterval :=
        le_trans (by norm_num [Summarize.MIN_INTERVAL]) hmin
      exact max_le hmin (by linarith)

/-- **C8** witness: a request 100 ms after the previous one (interval
1000 ms) is rejected with 429 and the interval grows to 1500 ms; a request
arriving much later is accepted and the interval decays back to the
minimum. -/
theorem claim_C8_witness :
    (Summarize.POST id id (.ok "S")
        ⟨"c", .brief, none, 100⟩
        { cache := [], lastRequestTime := 0, currentInterval := 1000,
          g := Gemini.initialState }).status = 429
    ∧ (Summarize.POST id id (.ok "S")
        ⟨"c", .brief, none, 100⟩
        { cache := [], lastRequestTime := 0, currentInterval := 1000,
          g := Gemini.initialState }).state.currentInterval = 1500
    ∧ (Summarize.POST id id (.ok "S")
        ⟨"c", .brief, none, 5000⟩
        { cache := [], lastRequestTime := 0, currentInterval := 1000,
          g := Gemini.initialState }).state.lastRequestTime = 5000 := by
  have h1 := (claim_C8_pacing_guard id id (.ok "S") ⟨"c", .brief, none, 100⟩
    { cache := [], lastRequestTime := 0, currentInterval := 1000,
      g := Gemini.initialState }).1 (by norm_num)
  have h2 := (claim_C8_pacing_guard id id (.ok "S") ⟨"c", .brief, none, 5000⟩
    { cache := [], lastRequestTime := 0, currentInterval := 1000,
      g := Gemini.initialState }).2 (by norm_num)
  refine ⟨h1.1, h1.2.2.1.trans ?_, h2.1⟩
  norm_num [Summarize.MAX_INTERVAL]

/-- **C1** — the code violates the claim: a summarize request carrying an
`If-None-Match` equal to the stored validator for its fingerprint, with the
entry well inside the stale limit (age 7200 s ≤ 86400 s), is *not* answered
with a 304-equivalent: `getCachedResponse` returns `null` on the validator
match (its `// Not modified` line), the handler treats that as a cache
miss, re-derives the summary — issuing an upstream generation call — and
responds `200`/`X-Cache: MISS` with the newly generated text. -/
theorem claim_C1_etag_match_regenerates :
    (Summarize.POST id id (.ok "NEW") ⟨"c", .brief, some "E", 7200000⟩
        { cache := [("brief:c", ⟨"OLD", 0, "E"⟩)], lastRequestTime := 0,
          currentInterval := 1000, g := Gemini.initialState }).status = 200
    ∧ (Summarize.POST id id (.ok "NEW") ⟨"c", .brief, some "E", 7200000⟩
        { cache := [("brief:c", ⟨"OLD", 0, "E"⟩)], lastRequestTime := 0,
          currentInterval := 1000, g := Gemini.initialState }).upstreamCalled = true
    ∧ (Summarize.POST id id (.ok "NEW") ⟨"c", .brief, some "E", 7200000⟩
        { cache := [("brief:c", ⟨"OLD", 0, "E"⟩)], lastRequestTime := 0,
          currentInterval := 1000, g := Gemini.initialState }).xcache = some "MISS"
    ∧ (Summarize.POST id id (.ok "NEW") ⟨"c", .brief, some "E", 7200000⟩
        { cache := [("brief:c", ⟨"OLD", 0, "E"⟩)], lastRequestTime := 0,
          currentInterval := 1000, g := Gemini.initialState }).summary = some "NEW" := by
  norm_num [Summarize.POST, Summarize.handleRequest, Summarize.getCachedResponse,
    Summarize.getCacheKey, Summarize.typeStr, Summarize.getModelConfig,
    Summarize.CACHE_DURATION, Summarize.STALE_WHILE_REVALIDATE,
    Summarize.MIN_INTERVAL, Summarize.MAX_INTERVAL, Summarize.cacheResponse,
    Summarize.generateETag, cacheGet, cacheSet,
    Gemini.generateText, Gemini.initialState, Gemini.lookupFresh,
    Gemini.checkRateLimit, Gemini.checkCount, Gemini.windowSize, Gemini.maxRequests,
    Gemini.resetTimeout, Gemini.applyOptions, Gemini.addRequest,
    show ("brief" : String) ++ ":" ++ "c" = "brief:c" from rfl,
    show ("NEW" : String) ≠ "" from by decide]

/-- **C5** — counterexample to the claim as stated: a request for a
stale-but-usable entry (age 7200 s, within the 86400 s stale limit) that
happens to present the currently stored validator is *not* served the
cached payload with a background refresh — the validator match makes
`getCachedResponse` return `null`, the refresh runs in the *foreground*,
and when the upstream call fails the whole request fails with `500` and no
summary, even though a perfectly usable stale entry was present. -/
theorem claim_C5_counterexample :
    (Summarize.POST id id (.err 500 "boom") ⟨"c", .brief, some "E", 7200000⟩
        { cache := [("brief:c", ⟨"OLD", 0, "E"⟩)], lastRequestTime := 0,
          currentInterval := 1000, g := Gemini.initialState }).status = 500
    ∧ (Summarize.POST id id (.err 500 "boom") ⟨"c", .brief, some "E", 7200000⟩
        { cache := [("brief:c", ⟨"OLD", 0, "E"⟩)], lastRequestTime := 0,
          currentInterval := 1000, g := Gemini.initialState }).summary = none
    ∧ (Summarize.POST id id (.err 500 "boom") ⟨"c", .brief, some "E", 7200000⟩
        { cache := [("brief:c", ⟨"OLD", 0, "E"⟩)], lastRequestTime := 0,
          currentInterval := 1000, g := Gemini.initialState }).bgStarted = false := by
  norm_num [Summarize.POST, Summarize.handleRequest, Summarize.getCachedResponse,
    Summarize.getCacheKey, Summarize.typeStr, Summarize.getModelConfig,
    Summarize.CACHE_DURATION, Summarize.STALE_WHILE_REVALIDATE,
    Summarize.MIN_INTERVAL, Summarize.MAX_INTERVAL, Summarize.cacheResponse,
    Summarize.generateETag, cacheGet, cacheSet,
    Gemini.generateText, Gemini.initialState, Gemini.lookupFresh,
    Gemini.checkRateLimit, Gemini.checkCount, Gemini.windowSize, Gemini.maxRequests,
    Gemini.resetTimeout, Gemini.applyOptions, Gemini.addRequest,
    show ("brief" : String) ++ ":" ++ "c" = "brief:c" from rfl,
    show strContains "boom" "API key" = false from by decide,
    show strContains Gemini.genericFailMsg "Rate limit" = false from by decide]

/-- **C5** (amended): for every cache entry in the stale window
(fresh limit < age ≤ stale limit), a request for its fingerprint *that does
not present the currently stored validator* is answered immediately with
the cached payload (`200`, `X-Cache: STALE`, no foreground upstream call)
while a refresh is started in the background; a refresh that produces no
text is swallowed — the foreground response already succeeded and the cache
is left unchanged, so the old payload keeps being served until the stale
limit; a refresh that produces text `t2` stores `⟨t2, now, etag(t2)⟩` under
the same fingerprint, so any later call within the new fresh window (again
not presenting the new validator) is served the updated payload as a fresh
hit with no upstream call. -/
theorem claim_C5_stale_while_revalidate (h256 hmd5 : String → String)
    (up : Gemini.UpstreamOutcome) (req : Summarize.SummRequest)
    (st : Summarize.EndpointState) (e : Summarize.SummCacheEntry)
    (hthr : ¬(req.now - st.lastRequestTime < st.currentInterval))
    (hget : cacheGet (Summarize.getCacheKey h256 req.content req.ty) st.cache = some e)
    (hinm : req.ifNoneMatch ≠ some e.etag)
    (h1 : Summarize.CACHE_DURATION < (req.now - e.timestamp) / 1000)
    (h2 : (req.now - e.timestamp) / 1000 ≤ Summarize.STALE_WHILE_REVALIDATE) :
    (Summarize.POST h256 hmd5 up req st).status = 200
    ∧ (Summarize.POST h256 hmd5 up req st).summary = some e.summary
    ∧ (Summarize.POST h256 hmd5 up req st).xcache = some "STALE"
    ∧ (Summarize.POST h256 hmd5 up req st).upstreamCalled = false
    ∧ (Summarize.POST h256 hmd5 up req st).bgStarted = true
    ∧ (((Gemini.generateText req.now up (Summarize.getPrompt req.content req.ty)
          (Summarize.getModelConfig req.ty).1 (Summarize.getModelConfig req.ty).2
          st.g).response.text = none
        ∨ (Gemini.generateText req.now up (Summarize.getPrompt req.content req.ty)
          (Summarize.getModelConfig req.ty).1 (Summarize.getModelConfig req.ty).2
          st.g).response.text = some "") →
        (Summarize.POST h256 hmd5 up req st).state.cache = st.cache)
    ∧ (∀ t2, (Gemini.generateText req.now up (Summarize.getPrompt req.content req.ty)
          (Summarize.getModelConfig req.ty).1 (Summarize.getModelConfig req.ty).2
          st.g).response.text = some t2 → t2 ≠ "" →
        cacheGet (Summarize.getCacheKey h256 req.content req.ty)
            (Summarize.POST h256 hmd5 up req st).state.cache =
          some ⟨t2, req.now, hmd5 t2⟩
        ∧ ∀ (up2 : Gemini.UpstreamOutcome) (req2 : Summarize.SummRequest),
            req2.content = req.content → req2.ty = req.ty →
            ¬(req2.now - (Summarize.POST h256 hmd5 up req st).state.lastRequestTime <
                (Summarize.POST h256 hmd5 up req st).state.currentInterval) →
            req2.ifNoneMatch ≠ some (hmd5 t2) →
            (req2.now - req.now) / 1000 ≤ Summarize.CACHE_DURATION →
            (Summarize.POST h256 hmd5 up2 req2
                (Summarize.POST h256 hmd5 up req st).state).summary = some t2
            ∧ (Summarize.POST h256 hmd5 up2 req2
                (Summarize.POST h256 hmd5 up req st).state).xcache = some "HIT"
            ∧ (Summarize.POST h256 hmd5 up2 req2
                (Summarize.POST h256 hmd5 up req st).state).upstreamCalled = false
            ∧ (Summarize.POST h256 hmd5 up2 req2
                (Summarize.POST h256 hmd5 up req st).state).bgStarted = false) := by
  have hpost : Summarize.POST h256 hmd5 up req st =
      Summarize.handleRequest h256 hmd5 up req
        { st with
          lastRequestTime := req.now
          currentInterval := max Summarize.MIN_INTERVAL (st.currentInterval * (4 / 5)) } := by
    unfold Summarize.POST
    rw [if_neg hthr]
  rw [hpost, Summarize.handleRequest_stale h256 hmd5 up req
    { st with
      lastRequestTime := req.now
      currentInterval := max Summarize.MIN_INTERVAL (st.currentInterval * (4 / 5)) }
    e hget hinm h1 h2]
  refine ⟨rfl, rfl, rfl, rfl, rfl, ?_, ?_⟩
  · rintro (htext | htext) <;> simp [htext]
  · intro t2 htext hne
    constructor
    · simp [htext, hne, Summarize.cacheResponse, Summarize.generateETag]
    · intro up2 req2 hc hty hthr2 hinm2 hfr2
      exact Summarize.POST_fresh_hit h256 hmd5 up2 req2 _ ⟨t2, req.now, hmd5 t2⟩
        hthr2
        (by rw [hc, hty]
            simp [htext, hne, Summarize.cacheResponse, Summarize.generateETag])
        hinm2 hfr2

/-- **C5** witness: a stale entry (age 7200 s) without validator is served
as `STALE` while the background refresh succeeds and stores the new
summary under the same key with the new timestamp. -/
theorem claim_C5_witness :
    (Summarize.POST id id (.ok "NEW") ⟨"c", .brief, none, 7200000⟩
        { cache := [("brief:c", ⟨"OLD", 0, "E"⟩)], lastRequestTime := 0,
          currentInterval := 1000, g := Gemini.initialState }).status = 200
    ∧ (Summarize.POST id id (.ok "NEW") ⟨"c", .brief, none, 7200000⟩
        { cache := [("brief:c", ⟨"OLD", 0, "E"⟩)], lastRequestTime := 0,
          currentInterval := 1000, g := Gemini.initialState }).summary = some "OLD"
    ∧ (Summarize.POST id id (.ok "NEW") ⟨"c", .brief, none, 7200000⟩
        { cache := [("brief:c", ⟨"OLD", 0, "E"⟩)], lastRequestTime := 0,
          currentInterval := 1000, g := Gemini.initialState }).xcache = some "STALE"
    ∧ cacheGet (Summarize.getCacheKey id "c" .brief)
        (Summarize.POST id id (.ok "NEW") ⟨"c", .brief, none, 7200000⟩
          { cache := [("brief:c", ⟨"OLD", 0, "E"⟩)], lastRequestTime := 0,
            currentInterval := 1000, g := Gemini.initialState }).state.cache =
        some ⟨"NEW", 7200000, id "NEW"⟩ := by
  have ht : (Gemini.generateText 7200000 (.ok "NEW")
      (Summarize.getPrompt "c" Summarize.SummaryType.brief)
      (Summarize.getModelConfig Summarize.SummaryType.brief).1
      (Summarize.getModelConfig Summarize.SummaryType.brief).2
      Gemini.initialState).response.text = some "NEW" := by
    norm_num [Gemini.generateText, Gemini.initialState, Gemini.lookupFresh,
      Gemini.checkRateLimit, Gemini.checkCount, Gemini.windowSize,
      Gemini.maxRequests, Gemini.resetTimeout, Gemini.applyOptions,
      Gemini.addRequest, Summarize.getModelConfig, cacheGet]
  have h := claim_C5_stale_while_revalidate id id (.ok "NEW")
    ⟨"c", .brief, none, 7200000⟩
    { cache := [("brief:c", ⟨"OLD", 0, "E"⟩)], lastRequestTime := 0,
      currentInterval := 1000, g := Gemini.initialState } ⟨"OLD", 0, "E"⟩
    (by norm_num)
    (by norm_num [Summarize.getCacheKey, Summarize.typeStr, cacheGet,
      show ("brief" : String) ++ ":" ++ "c" = "brief:c" from rfl])
    (by simp)
    (by norm_num [Summarize.CACHE_DURATION])
    (by norm_num [Summarize.STALE_WHILE_REVALIDATE])
  exact ⟨h.1, h.2.1, h.2.2.1, (h.2.2.2.2.2.2 "NEW" ht (by decide)).1⟩
